import Mathlib

/-!
# Verification of the insteon per-device message pipeline

Shallow embedding of the code in `src/insteon/insteon_device.py`,
`src/insteon/devices/generic_send.py` and
`src/insteon_mngr/sequences/i1_device.py`.

Conventions of the embedding:

* Machine bytes are `Nat`; the source never relies on byte overflow in the
  fragments embedded here (masking is done with `&&&`).
* Wall-clock time and the modem backoff are rationals (seconds), so that the
  `total_delay / 1000` divisions of the source are exact.
* Python `time.time()` is passed explicitly as a `now : ℚ` argument; the two
  reads inside one receive (`_clear_stale_dupes` / `_store_msg_in_recent`)
  are modelled by the same `now`, matching the spec's atomic-receive model.
* Fallible paths (an unguarded `self.last_sent_msg.…` access with
  `last_sent_msg = None` raises `AttributeError` in Python) return `none`.
* The inbound dispatch tables `EXT_DIRECT_SCHEMA` / `STD_DIRECT_ACK_SCHEMA`
  live in `msg_schema.py`, which is not part of the sources; the result of
  the schema lookup plus narrowing plus handler call is a parameter
  (`Handlers`), universally quantified in the theorems.
* Calls into collaborators whose code is not part of the sources
  (`send_command` queuing, `_resend_msg`, `_aldb.query_aldb`,
  `add_plm_to_dev_link`, `remove_state_machine`) are recorded as events on
  an event trace; `remove_state_machine` additionally drops the queued
  messages of the label, following spec section 4.6.
-/

/-- Message classes of a decoded frame (`msg.insteon_msg.message_type`). -/
inductive MsgType where
  | direct
  | direct_ack
  | direct_nack
  | broadcast
  | alllink_cleanup
  | alllink_cleanup_ack
deriving DecidableEq, Repr

/-- Length class of a frame (`msg.insteon_msg.msg_length`). -/
inductive MsgLength where
  | standard
  | extended
deriving DecidableEq, Repr

/-- An inbound frame as exposed by the frame parser (spec section 3). -/
structure InMsg where
  message_type : MsgType
  msg_length : MsgLength
  max_hops : ℕ
  hops_left : ℕ
  cmd_1 : ℕ
  cmd_2 : ℕ
  to_addr_hi : ℕ
  to_addr_mid : ℕ
  to_addr_low : ℕ
  raw_msg : List ℕ
deriving DecidableEq, Repr

/-- The `last_sent_msg` reference: the fields of the outgoing frame that the
inbound pipeline reads and writes (`plm_ack`, `insteon_msg.device_ack`,
`insteon_msg.device_cmd_name`, `cmd_1`, `cmd_2`, `state_machine`). -/
structure SentMsg where
  plm_ack : Bool
  device_ack : Bool
  device_cmd_name : String
  cmd_1 : ℕ
  cmd_2 : ℕ
  state_machine : String
deriving DecidableEq, Repr

/-- A frame sitting in the per-device outgoing queue; `_remove_cleanup_msgs`
reads its `cmd_1` and `cmd_2`, and its message class is carried along so that
the queue model distinguishes cleanup frames from direct frames. -/
structure QMsg where
  cmd_1 : ℕ
  cmd_2 : ℕ
  message_type : MsgType
deriving DecidableEq, Repr

/-- External calls made by the pipeline into collaborators whose own code is
outside the embedded sources.  They are recorded on a trace. -/
inductive Event where
  | sendCommand (name state : String)
  | resendMsg
  | queryAldb
  | addPlmToDevLink
  | removeStateMachine (label : String)
deriving DecidableEq, Repr

/-- Observable state of one `Insteon_Device` together with the modem knob it
writes (`plm.wait_to_send`).  The knob is stored as the absolute time until
which dispatch is suppressed: the property setter receiving the device's
assignments lives in `plm.py`, absent from the sources, and spec section 5
says its writers always prefer the larger remaining delay (see
`write_plm_wait`).  Attribute-map entries are `Option ℕ`
(`none` = attribute absent). -/
structure DevState where
  wait_to_send : ℚ
  last_rcvd_msg : Option InMsg
  recent_inc_msgs : List (List ℕ × ℚ)
  last_sent_msg : Option SentMsg
  engine_version : Option ℕ
  dev_cat : Option ℕ
  sub_cat : Option ℕ
  firmware : Option ℕ
  status : Option ℕ
  aldb_delta : Option ℕ
  hop_array : Option (List ℕ)
  state_machine : String
  device_msg_queue : List (String × List QMsg)
  events : List Event
deriving DecidableEq, Repr

/-- Outcome of the `STD_DIRECT_ACK_SCHEMA` / `EXT_DIRECT_SCHEMA` dispatch,
which lives in `msg_schema.py` (not part of the sources).  `extMem cmd_1` /
`stdAckMem cmd_1` model the `cmd_1 in SCHEMA` membership tests; `ext` and
`stdAck` model the narrowing walk plus handler invocation (a narrowing miss
is the identity on the state).  `stdAck` additionally returns the handler's
`is_ack` result, `false` modelling a Python `return False` and `true` any
other return value. -/
structure Handlers where
  extMem : ℕ → Bool
  ext : InMsg → DevState → DevState
  stdAckMem : ℕ → Bool
  stdAck : InMsg → DevState → DevState × Bool

/-- Append an external call to the trace. -/
def addEvent (e : Event) (s : DevState) : DevState :=
  {s with events := s.events ++ [e]}

/-- Model of `remove_state_machine` of the base class (not in the sources).
Modelled from the spec: section 4.6 says it "drops all queued outgoing
messages tagged with that label and removes all triggers" of the label; the
call itself is recorded on the trace. -/
def remove_state_machine (label : String) (s : DevState) : DevState :=
  addEvent (.removeStateMachine label)
    {s with
      device_msg_queue :=
        s.device_msg_queue.map fun p => if p.1 = label then (p.1, []) else p}

/-- Model of `send_command` of `insteon_device.py`.  Modelled from the spec: the
message construction (`create_message`, schema narrowing, queuing) uses the
external `COMMAND_SCHEMA`, so the call is recorded as an event carrying the
command name and state-machine label. -/
def send_command (name state : String) (s : DevState) : DevState :=
  addEvent (.sendCommand name state) s

/-- Source `_init_step_3`: unconditionally request the light status. -/
def init_step_3 (s : DevState) : DevState :=
  send_command "light_status_request" "" s

/-- Source `_init_step_2`: if any identity attribute is unknown, probe identity,
otherwise continue with step 3. -/
def init_step_2 (s : DevState) : DevState :=
  if s.dev_cat = none ∨ s.sub_cat = none ∨ s.firmware = none then
    send_command "id_request" "" s
  else
    init_step_3 s

/-- Source `_hops_used_from_msg`. -/
def hops_used_from_msg (msg : InMsg) : ℕ :=
  msg.max_hops - msg.hops_left

/-- Source `_add_to_hop_array`, acting on the plain list (the attribute read,
`None` defaulting and write-back are done at the call site). -/
def add_to_hop_array (hop_array : List ℕ) (hops_used : ℕ) : List ℕ :=
  let a := hop_array ++ [hops_used]
  let extra_data := a.length - 10
  if extra_data > 0 then a.drop extra_data else a

/-- Read the `hop_array` attribute with the `None → []` defaulting of
`_add_to_hop_array`, append, and write the attribute back. -/
def add_hop (msg : InMsg) (s : DevState) : DevState :=
  {s with
    hop_array :=
      some (add_to_hop_array (s.hop_array.getD []) (hops_used_from_msg msg))}

/-- The value `_set_plm_wait` assigns to `plm.wait_to_send`:
`hop_delay * hops_left / 1000 + 5 / 1000` seconds, with
`hop_delay = 50` (standard) or `109` (extended). -/
def plm_wait_value (msg : InMsg) : ℚ :=
  let hop_delay : ℚ := if msg.msg_length = .standard then 50 else 109
  hop_delay * msg.hops_left / 1000 + 5 / 1000

/-- Modelled from the spec: an assignment `self.plm.wait_to_send = v` made
at time `now` reaches the PLM's `wait_to_send` property setter, whose code
(`plm.py`) is not part of the sources; spec section 5 says writers "may
overwrite it, always preferring the larger remaining delay for safety", so
the write keeps the later of the current expiry and `now + v` — the same
setter semantics as `write_wait_to_send` below. -/
def write_plm_wait (now v : ℚ) (s : DevState) : DevState :=
  {s with wait_to_send := max s.wait_to_send (now + v)}

/-- Source `_set_plm_wait`: assign the hop-derived delay to the knob. -/
def set_plm_wait (now : ℚ) (msg : InMsg) (s : DevState) : DevState :=
  write_plm_wait now (plm_wait_value msg) s

/-- Source `_get_search_key`: the raw frame with byte 8 masked to its high nibble.
(`BYTE_TO_HEX` is injective on byte strings, so the key is modelled as the
masked byte list itself.) -/
def search_key (msg : InMsg) : List ℕ :=
  msg.raw_msg.set 8 (msg.raw_msg.getD 8 0 &&& 0xF0)

/-- Source `_clear_stale_dupes`: evict entries whose expiry precedes `now`. -/
def clear_stale_dupes (now : ℚ) (recent : List (List ℕ × ℚ)) :
    List (List ℕ × ℚ) :=
  recent.filter fun kv => ¬ kv.2 < now

/-- The dedup window stored by `_store_msg_in_recent`:
`(87 or 183) * hops_left / 1000` seconds. -/
def dedup_window (msg : InMsg) : ℚ :=
  let hop_delay : ℚ := if msg.msg_length = .standard then 87 else 183
  hop_delay * msg.hops_left / 1000

/-- Source `_is_msg_in_recent` applied after `_clear_stale_dupes`: is the masked
signature present in the surviving cache entries? -/
def dup_found (now : ℚ) (msg : InMsg) (recent : List (List ℕ × ℚ)) : Bool :=
  (clear_stale_dupes now recent).any fun kv => decide (kv.1 = search_key msg)

/-- Source `_is_duplicate`: evict stale entries, then either report a duplicate or
store the signature with expiry `now + dedup_window`. -/
def is_duplicate (now : ℚ) (msg : InMsg) (s : DevState) : Bool × DevState :=
  let cleared := clear_stale_dupes now s.recent_inc_msgs
  if dup_found now msg s.recent_inc_msgs then
    (true, {s with recent_inc_msgs := cleared})
  else
    (false, {s with
      recent_inc_msgs := cleared ++ [(search_key msg, now + dedup_window msg)]})

/-- Set `self.last_sent_msg.insteon_msg.device_ack = True` (the paths doing
this all have a current `last_sent_msg`). -/
def set_device_ack (s : DevState) : DevState :=
  {s with last_sent_msg := s.last_sent_msg.map fun l => {l with device_ack := true}}

/-- Source `_is_valid_direct_ack` on the extracted `last_sent_msg`:
`plm_ack` must be `True` and `device_ack` must be `False`. -/
def is_valid_direct_ack (l : SentMsg) : Bool :=
  l.plm_ack && !l.device_ack

/-- Source `_process_direct_msg`: hop accounting, then for extended frames whose
`cmd_1` is in `EXT_DIRECT_SCHEMA` the narrowing walk and handler call
(the `Handlers` parameter). -/
def process_direct_msg (H : Handlers) (msg : InMsg) (s : DevState) : DevState :=
  let s := add_hop msg s
  if msg.msg_length = .extended ∧ H.extMem msg.cmd_1 then H.ext msg s else s

/-- Source `_process_direct_ack`.  The value `none` models the `AttributeError` of the
unguarded `self.last_sent_msg.plm_ack` access when no message was sent. -/
def process_direct_ack (H : Handlers) (msg : InMsg) (s : DevState) :
    Option DevState :=
  let s := add_hop msg s
  match s.last_sent_msg with
  | none => none
  | some l =>
    if ¬ is_valid_direct_ack l then some s
    else if l.device_cmd_name = "light_status_request" then
      let aldbDelta := msg.cmd_1
      let s :=
        if s.state_machine = "set_aldb_delta" then
          remove_state_machine "set_aldb_delta" {s with aldb_delta := some aldbDelta}
        else if s.aldb_delta ≠ some aldbDelta then
          addEvent .queryAldb s
        else s
      some (set_device_ack {s with status := some msg.cmd_2})
    else if l.cmd_1 = msg.cmd_1 then
      if H.stdAckMem msg.cmd_1 then
        let r := H.stdAck msg s
        if r.2 then some (set_device_ack r.1) else some r.1
      else
        some (set_device_ack s)
    else some s

/-- Source `_process_direct_nack`.  The value `none` models the `AttributeError` of the
unguarded `last_sent_msg` access.  The `wait_to_send = 1` assignments go
through the spec-modelled setter (`write_plm_wait`) at the receive time
`now`.  Note the engine-version 0x00/0x01 branch
sets `plm.wait_to_send = 1` but issues no `_resend_msg` call. -/
def process_direct_nack (now : ℚ) (msg : InMsg) (s : DevState) :
    Option DevState :=
  let s := add_hop msg s
  match s.last_sent_msg with
  | none => none
  | some l =>
    if ¬ is_valid_direct_ack l then some s
    else if l.cmd_1 = msg.cmd_1 then
      if s.engine_version = some 0x02 ∨ s.engine_version = none then
        if msg.cmd_2 = 0xFF then
          some (addEvent .addPlmToDevLink
            (remove_state_machine l.state_machine
              (set_device_ack {s with engine_version := some 0x02})))
        else if msg.cmd_2 = 0xFE then
          some (set_device_ack {s with engine_version := some 0x02})
        else if msg.cmd_2 = 0xFD then
          some (addEvent .resendMsg
            (write_plm_wait now 1 {s with engine_version := some 0x02}))
        else if msg.cmd_2 = 0xFC then
          some (set_device_ack {s with engine_version := some 0x02})
        else if msg.cmd_2 = 0xFB then
          some (set_device_ack {s with engine_version := some 0x02})
        else
          some (addEvent .resendMsg (write_plm_wait now 1 s))
      else
        some (write_plm_wait now 1 s)
    else some s

/-- Source `_remove_cleanup_msgs`: delete from every state-machine label's queue the
frames whose `cmd_1` and `cmd_2` both equal the ack's. -/
def remove_cleanup_msgs (msg : InMsg) (s : DevState) : DevState :=
  {s with
    device_msg_queue := s.device_msg_queue.map fun p =>
      (p.1, p.2.filter fun q => ¬ (q.cmd_1 = msg.cmd_1 ∧ q.cmd_2 = msg.cmd_2))}

/-- The `alllink_cleanup_ack` arm of `msg_rcvd`: purge matching queued
frames, then mark the last-sent frame device-acknowledged when its command
bytes match (guarded Python truthiness: a `None` last-sent matches nothing). -/
def cleanup_ack_arm (msg : InMsg) (s : DevState) : DevState :=
  let s := remove_cleanup_msgs msg s
  match s.last_sent_msg with
  | some l =>
    if l.cmd_1 = msg.cmd_1 ∧ l.cmd_2 = msg.cmd_2 then set_device_ack s else s
  | none => s

/-- The `broadcast` arm of `msg_rcvd`: adopt the identity bytes from the
destination address and continue with init step 3. -/
def broadcast_arm (msg : InMsg) (s : DevState) : DevState :=
  init_step_3
    {s with
      dev_cat := some msg.to_addr_hi, sub_cat := some msg.to_addr_mid,
      firmware := some msg.to_addr_low}

/-- Source `msg_rcvd`: wait-to-send update, `last_rcvd_msg` store, duplicate check,
then classification by message type.  A message class with no `elif` arm
(outgoing-only `alllink_cleanup`) falls through the chain unchanged. -/
def msg_rcvd (H : Handlers) (now : ℚ) (msg : InMsg) (s : DevState) :
    Option DevState :=
  let s := set_plm_wait now msg s
  let s := {s with last_rcvd_msg := some msg}
  let d := is_duplicate now msg s
  if d.1 then some d.2
  else
    let s := d.2
    match msg.message_type with
    | .direct => some (process_direct_msg H msg s)
    | .direct_ack => process_direct_ack H msg s
    | .direct_nack => process_direct_nack now msg s
    | .broadcast => some (broadcast_arm msg s)
    | .alllink_cleanup_ack => some (cleanup_ack_arm msg s)
    | .alllink_cleanup => some s

/-- The state after the three per-receive bookkeeping steps of `msg_rcvd`
(wait-to-send update, `last_rcvd_msg` store, dedup bookkeeping) when the
frame is not a duplicate: a derived abbreviation equal to what the first
lines of `msg_rcvd` compute before classification. -/
def after_bookkeeping (now : ℚ) (msg : InMsg) (s : DevState) : DevState :=
  {s with
    wait_to_send := max s.wait_to_send (now + plm_wait_value msg),
    last_rcvd_msg := some msg,
    recent_inc_msgs :=
      clear_stale_dupes now s.recent_inc_msgs ++
        [(search_key msg, now + dedup_window msg)]}

/-- Deliver a timed list of inbound frames in order (`none` once any
delivery raises). -/
def process_frames (H : Handlers) : List (ℚ × InMsg) → DevState → Option DevState
  | [], s => some s
  | f :: rest, s =>
    match msg_rcvd H f.1 f.2 s with
    | none => none
    | some s' => process_frames H rest s'

/-- Source `_set_engine_version` (the `get_engine_version` direct-ack handler):
a `cmd_2` of 0xFB or above is the i2cs ack-means-nack hack — force engine
version 0x02 and re-run the frame through the direct-nack handler; otherwise
store `cmd_2` as the engine version and continue initialization. -/
def set_engine_version (now : ℚ) (msg : InMsg) (s : DevState) :
    Option DevState :=
  if 0xFB ≤ msg.cmd_2 then
    process_direct_nack now msg {s with engine_version := some 0x02}
  else
    some (init_step_2 {s with engine_version := some msg.cmd_2})

/-! ## The i1 ALDB record write (`WriteALDBRecordi1`, `i1_device.py`) -/

/-- Wire activity of one `WriteALDBRecordi1` run: the `peek_one_byte` and
`poke_one_byte` frames it emits and the final `_write_complete` call. -/
inductive WEvent where
  | peek (lsb : ℕ)
  | poke (val : ℕ)
  | complete
deriving DecidableEq, Repr

/-- The `while` loop at the head of `_perform_write`: advance `lsb` while the
position is below 7 and the target byte (`_addr_byte_by_lsb`, i.e. the
compiled record at position `lsb % 8`) equals the cached record's byte at the
same position (`record_parsed[_name_position(lsb)]`).  `fuel` bounds the
iterations; the loop advances `lsb % 8` towards 7, so 8 is always enough. -/
def skip_equal_bytes : ℕ → List ℕ → List ℕ → ℕ → ℕ
  | 0, _, _, lsb => lsb
  | fuel + 1, target, cached, lsb =>
    if lsb % 8 < 7 ∧ target.getD (lsb % 8) 0 = cached.getD (lsb % 8) 0 then
      skip_equal_bytes fuel target cached (lsb + 1)
    else lsb

/-- Source `_perform_write` with `_send_poke_request` inlined at the comment below.
`target` is the 8-byte compiled record (`_compiled_record`, in byte order
link_flags, group, dev_addr_hi, dev_addr_mid, dev_addr_low, data_1, data_2,
data_3), `cached` the parsed cached record, `cached_key` the
`aldb_key in records` test.  Each recursion step emits one peek/poke frame
pair, so `lsb % 8` advances towards 7 and fuel 8 is always enough. -/
def perform_write_fuel : ℕ → List ℕ → List ℕ → Bool → Bool → ℕ → List WEvent
  | 0, _, _, _, _, _ => []
  | fuel + 1, target, cached, cached_key, in_use, lsb =>
    let lsb2 := if cached_key then skip_equal_bytes 8 target cached lsb else lsb
    if 7 ≤ lsb2 % 8 ∨ (1 ≤ lsb2 % 8 ∧ in_use = false) then [.complete]
    else
      -- `_send_poke_request lsb2`: peek was acked, poke the target byte; the
      -- poke trigger continues with `_perform_write (lsb2 + 1)` when
      -- `lsb2 % 8 < 7` and with `_write_complete` otherwise.
      .peek lsb2 :: .poke (target.getD (lsb2 % 8) 0) ::
        (if lsb2 % 8 < 7 then
          perform_write_fuel fuel target cached cached_key in_use (lsb2 + 1)
        else [.complete])

/-- Source `WriteALDBRecordi1._perform_write` run to completion. -/
def perform_write (target cached : List ℕ) (cached_key in_use : Bool)
    (lsb : ℕ) : List WEvent :=
  perform_write_fuel 8 target cached cached_key in_use lsb

/-- One peek/poke pair for position `p` of the record at base address `base`,
emitted exactly when the target byte differs from the cached byte. -/
def write_pair_if_diff (target cached : List ℕ) (base p : ℕ) : List WEvent :=
  if target.getD p 0 = cached.getD p 0 then []
  else [.peek (base + p), .poke (target.getD p 0)]

/-! ## The modem backoff knob (`plm.wait_to_send`) -/

/-- Modelled from the spec: the PLM object and its `wait_to_send` property
live in `plm.py`, which is not part of the sources (the device code only
assigns `self.plm.wait_to_send = value`).  Spec section 5 says the knob is a
scalar read at dispatch time whose writers "may overwrite it, always
preferring the larger remaining delay for safety", so it is modelled as the
absolute time until which dispatch is suppressed. -/
structure PlmWait where
  expiry : ℚ
deriving DecidableEq, Repr

/-- Modelled from the spec: writing a requested delay `v` at time `now`
keeps the later of the current expiry and `now + v` (the larger remaining
delay wins). -/
def write_wait_to_send (now v : ℚ) (p : PlmWait) : PlmWait :=
  ⟨max p.expiry (now + v)⟩

/-- Delay still pending at time `now`. -/
def remaining_delay (now : ℚ) (p : PlmWait) : ℚ :=
  p.expiry - now

/-! ## `GenericSendHandler.delete_record` (`generic_send.py`) -/

/-- The ALDB write sequence as far as `delete_record` configures one:
`link_sequence.address = address; link_sequence.in_use = False;
link_sequence.start()`. -/
structure LinkSequence where
  address : List ℕ
  in_use : Bool
  started : Bool
deriving DecidableEq, Repr

/-- Source `GenericSendHandler.delete_record`: the local `link_sequence` is assigned
(a `WriteALDBRecordi2`) only under `engine_version > 0x00`; otherwise the
following `link_sequence.address = address` raises `UnboundLocalError`
before any sequence exists or any frame goes out, modelled as the error
result. -/
def delete_record (engine_version : ℕ) (address : List ℕ) :
    Except String LinkSequence :=
  if engine_version > 0x00 then
    Except.ok {address := address, in_use := false, started := true}
  else
    Except.error "UnboundLocalError"

/-! ## Handler-environment constraints and concrete example states

The schema-dispatched handlers of `msg_schema.py` are environment
parameters; the two predicates below record facts true of every concrete
handler in the sources (`ack_set_msb`, `ack_peek_aldb`, `_ext_aldb_rcvd`,
`_set_engine_version`): none of them touches the dedup cache, and any hop
accounting they do goes through `_add_to_hop_array`, which enforces the
length bound. -/

/-- The handler environment never touches `recent_inc_msgs`. -/
def HandlersPreserveRecent (H : Handlers) : Prop :=
  (∀ m st, (H.ext m st).recent_inc_msgs = st.recent_inc_msgs) ∧
  (∀ m st, ((H.stdAck m st).1).recent_inc_msgs = st.recent_inc_msgs)

/-- The hop-array length bound `≤ 10`. -/
def hop_ok (s : DevState) : Prop :=
  (s.hop_array.getD []).length ≤ 10

/-- The handler environment preserves the hop-array bound. -/
def HandlersPreserveHopOk (H : Handlers) : Prop :=
  (∀ m st, hop_ok st → hop_ok (H.ext m st)) ∧
  (∀ m st, hop_ok st → hop_ok (H.stdAck m st).1)

/-- A trivial handler environment (no schema entries). -/
def H0 : Handlers :=
  {extMem := fun _ => false, ext := fun _ s => s,
   stdAckMem := fun _ => false, stdAck := fun _ s => (s, true)}

/-- A direct NACK answering an `on` command, one hop used. -/
def nackMsg : InMsg :=
  {message_type := .direct_nack, msg_length := .standard, max_hops := 3,
   hops_left := 1, cmd_1 := 0x11, cmd_2 := 0x01, to_addr_hi := 0,
   to_addr_mid := 0, to_addr_low := 0,
   raw_msg := [0x02, 0x50, 1, 2, 3, 4, 5, 6, 0x27]}

/-- A last-sent `on` command that was modem-acked and awaits the device. -/
def sentOn : SentMsg :=
  {plm_ack := true, device_ack := false, device_cmd_name := "on",
   cmd_1 := 0x11, cmd_2 := 0xFF, state_machine := ""}

/-- A device reporting engine version 0x01 with `sentOn` outstanding. -/
def baseDev : DevState :=
  {wait_to_send := 0, last_rcvd_msg := none, recent_inc_msgs := [],
   last_sent_msg := some sentOn, engine_version := some 0x01,
   dev_cat := some 0x01, sub_cat := some 0x20, firmware := some 0x3A,
   status := none, aldb_delta := none, hop_array := none,
   state_machine := "", device_msg_queue := [], events := []}

/-- State of `baseDev` after one delivery of `nackMsg` at time 0: hop recorded,
signature cached until 87 ms, and the engine-0x01 NACK arm has pushed the
knob's expiry to 1 second (the larger of the hop-derived 55 ms and the
NACK's 1-second request). -/
def baseDevOnce : DevState :=
  {baseDev with
    wait_to_send := 1, last_rcvd_msg := some nackMsg,
    recent_inc_msgs := [(search_key nackMsg, 87 / 1000)],
    hop_array := some [2]}

/-- The same frame as `nackMsg` but a plain `direct` message. -/
def dirMsg : InMsg :=
  {nackMsg with message_type := .direct}

/-- State of `baseDev` after one delivery of `dirMsg` at time 0: hop
recorded, signature cached until 87 ms, knob expiry at the hop-derived
55 ms. -/
def dirOnce : DevState :=
  {baseDev with
    wait_to_send := 11 / 200, last_rcvd_msg := some dirMsg,
    recent_inc_msgs := [(search_key dirMsg, 87 / 1000)],
    hop_array := some [2]}

/-- An inbound `alllink_cleanup_ack` for `(cmd_1, cmd_2) = (0x11, 0xFF)`. -/
def cleanupAckMsg : InMsg :=
  {message_type := .alllink_cleanup_ack, msg_length := .standard,
   max_hops := 3, hops_left := 1, cmd_1 := 0x11, cmd_2 := 0xFF,
   to_addr_hi := 0, to_addr_mid := 0, to_addr_low := 0,
   raw_msg := [0x02, 0x50, 1, 2, 3, 4, 5, 6, 0x67]}

/-- A queued outgoing `on` frame: a `direct` frame, not a cleanup frame,
whose command bytes happen to match `cleanupAckMsg`. -/
def onQMsg : QMsg :=
  {cmd_1 := 0x11, cmd_2 := 0xFF, message_type := .direct}

/-- A device with the direct `onQMsg` queued and nothing outstanding. -/
def queuedDev : DevState :=
  {baseDev with last_sent_msg := none, device_msg_queue := [("", [onQMsg])]}

/-- Like `sentOn` but already device-acknowledged: a stale-gate scenario. -/
def staleSent : SentMsg := {sentOn with device_ack := true}


/-- Like `baseDev` but with the already-acked `staleSent` outstanding. -/
def staleDev : DevState := {baseDev with last_sent_msg := some staleSent}


/-- An outstanding `light_status_request` tagged `set_aldb_delta`. -/
def lsrSent : SentMsg :=
  {plm_ack := true, device_ack := false,
   device_cmd_name := "light_status_request", cmd_1 := 0x19, cmd_2 := 0x00,
   state_machine := "set_aldb_delta"}


/-- A device inside the `set_aldb_delta` state machine awaiting status. -/
def statusDev : DevState :=
  {baseDev with
    last_sent_msg := some lsrSent, state_machine := "set_aldb_delta"}


/-- The status ack: `cmd_1` carries the ALDB delta, `cmd_2` the status. -/
def statusAckMsg : InMsg :=
  {message_type := .direct_ack, msg_length := .standard, max_hops := 3,
   hops_left := 2, cmd_1 := 0x05, cmd_2 := 0xFF, to_addr_hi := 0,
   to_addr_mid := 0, to_addr_low := 0,
   raw_msg := [0x02, 0x50, 1, 2, 3, 4, 5, 6, 0x2B]}


/-! ## Building-block lemmas about the receive pipeline -/

/-- When the frame is a known duplicate, `msg_rcvd` performs only the
bookkeeping of the first three lines and returns. -/
theorem msg_rcvd_dup (H : Handlers) (now : ℚ) (msg : InMsg) (s : DevState)
    (hd : dup_found now msg s.recent_inc_msgs = true) :
    msg_rcvd H now msg s =
      some {s with
        wait_to_send := max s.wait_to_send (now + plm_wait_value msg),
        last_rcvd_msg := some msg,
        recent_inc_msgs := clear_stale_dupes now s.recent_inc_msgs} := by
  simp [msg_rcvd, is_duplicate, set_plm_wait, write_plm_wait, hd]

/-- When the frame is not a duplicate, `msg_rcvd` on a `direct_ack` frame is
the direct-ack processor applied to the bookkept state. -/
theorem msg_rcvd_not_dup_direct_ack (H : Handlers) (now : ℚ) (msg : InMsg)
    (s : DevState) (hmt : msg.message_type = .direct_ack)
    (hnd : dup_found now msg s.recent_inc_msgs = false) :
    msg_rcvd H now msg s = process_direct_ack H msg (after_bookkeeping now msg s) := by
  simp [msg_rcvd, is_duplicate, set_plm_wait, write_plm_wait, hnd, hmt,
    after_bookkeeping]

/-- When the frame is not a duplicate, `msg_rcvd` on a `direct_nack` frame is
the direct-nack processor applied to the bookkept state. -/
theorem msg_rcvd_not_dup_direct_nack (H : Handlers) (now : ℚ) (msg : InMsg)
    (s : DevState) (hmt : msg.message_type = .direct_nack)
    (hnd : dup_found now msg s.recent_inc_msgs = false) :
    msg_rcvd H now msg s =
      process_direct_nack now msg (after_bookkeeping now msg s) := by
  simp [msg_rcvd, is_duplicate, set_plm_wait, write_plm_wait, hnd, hmt,
    after_bookkeeping]

/-- When the frame is not a duplicate, `msg_rcvd` on an
`alllink_cleanup_ack` frame is the cleanup-ack arm on the bookkept state. -/
theorem msg_rcvd_not_dup_cleanup_ack (H : Handlers) (now : ℚ) (msg : InMsg)
    (s : DevState) (hmt : msg.message_type = .alllink_cleanup_ack)
    (hnd : dup_found now msg s.recent_inc_msgs = false) :
    msg_rcvd H now msg s = some (cleanup_ack_arm msg (after_bookkeeping now msg s)) := by
  simp [msg_rcvd, is_duplicate, set_plm_wait, write_plm_wait, hnd, hmt,
    after_bookkeeping]

/-- Source `_add_to_hop_array` never returns more than 10 samples. -/
theorem add_to_hop_array_length_le (a : List ℕ) (h : ℕ) :
    (add_to_hop_array a h).length ≤ 10 := by
  simp only [add_to_hop_array]
  split
  · simp only [List.length_drop, List.length_append, List.length_cons,
      List.length_nil]
    omega
  · rename_i hle
    simp only [List.length_append, List.length_cons, List.length_nil] at hle ⊢
    omega

/-- Source `_add_to_hop_array` keeps exactly the most recent samples: it is the
suffix of the appended array obtained by dropping the overflow. -/
theorem add_to_hop_array_eq_drop (a : List ℕ) (h : ℕ) :
    add_to_hop_array a h = (a ++ [h]).drop ((a ++ [h]).length - 10) := by
  simp only [add_to_hop_array]
  split
  · rfl
  · rename_i hle
    have h0 : (a ++ [h]).length - 10 = 0 := by
      simp only [List.length_append, List.length_cons, List.length_nil] at hle ⊢
      omega
    rw [h0, List.drop_zero]

/-- The hop-array bound holds after every `_add_to_hop_array` write-back. -/
theorem hop_ok_add_hop (msg : InMsg) (s : DevState) : hop_ok (add_hop msg s) := by
  simp [hop_ok, add_hop, add_to_hop_array_length_le]

/-! ## Claim theorems -/

/-- Claim C9 (confirmed): for engine version 0x00 (i1), `delete_record`
rejects the deletion with an error before any write sequence exists: the
local sequence variable is assigned only when `engine_version > 0x00`, so no
`WriteALDBRecordi2` is created, no write frame goes out, and the call raises
`UnboundLocalError`. -/
theorem delete_record_rejects_i1 :
    (∀ address, delete_record 0x00 address = Except.error "UnboundLocalError") ∧
    (∀ engine_version address,
      (∃ seq, delete_record engine_version address = Except.ok seq) ↔
        0x00 < engine_version) := by
  constructor
  · intro address
    rfl
  · intro engine_version address
    constructor
    · rintro ⟨seq, hseq⟩
      by_contra hle
      have h0 : engine_version = 0 := by omega
      rw [h0] at hseq
      exact absurd hseq (by simp [delete_record])
    · intro hgt
      exact ⟨{address := address, in_use := false, started := true},
        by simp [delete_record, hgt]⟩

/-- Two writes preferring the larger remaining delay leave at least the
larger of the two requested delays pending. -/
theorem two_writes_keep_max (e now v1 v2 : ℚ) :
    max v1 v2 ≤ max (max e (now + v1)) (now + v2) - now := by
  have h1 : now + v1 ≤ max (max e (now + v1)) (now + v2) :=
    le_trans (le_max_right _ _) (le_max_left _ _)
  have h2 : now + v2 ≤ max (max e (now + v1)) (now + v2) := le_max_right _ _
  rw [le_sub_iff_add_le]
  rcases le_total v1 v2 with hc | hc
  · rw [max_eq_right hc]
    linarith
  · rw [max_eq_left hc]
    linarith

/-- Claim C8 (confirmed, spec-modelled PLM setter): when the per-receive
hop-delay update (value `plm_wait_value`, computed by `_set_plm_wait` as
`hop_delay * hops_left + 5 ms` with 50/109 ms per hop) and another writer
such as the NACK resend's `wait_to_send = 1` hit the knob in the same
window, the remaining delay never drops below the larger requested value,
in either write order; and any later write can only extend the expiry, so
the bound persists for the remainder of the window. -/
theorem wait_to_send_prefers_larger_delay (p : PlmWait) (now : ℚ)
    (msg : InMsg) (v : ℚ) :
    max (plm_wait_value msg) v ≤
      remaining_delay now
        (write_wait_to_send now v (write_wait_to_send now (plm_wait_value msg) p)) ∧
    max (plm_wait_value msg) v ≤
      remaining_delay now
        (write_wait_to_send now (plm_wait_value msg) (write_wait_to_send now v p)) ∧
    (∀ (q : PlmWait) (later w : ℚ),
      q.expiry ≤ (write_wait_to_send later w q).expiry) := by
  refine ⟨?_, ?_, fun q later w => le_max_left _ _⟩
  · simp only [remaining_delay, write_wait_to_send]
    exact two_writes_keep_max p.expiry now (plm_wait_value msg) v
  · simp only [remaining_delay, write_wait_to_send]
    rw [max_comm]
    exact two_writes_keep_max p.expiry now v (plm_wait_value msg)

/-- Claim C2 (code bug): at the failing input — engine version 0x01, a
valid matching `direct_nack` — the code sets `plm.wait_to_send = 1` but
issues no `_resend_msg` call (the event trace stays empty), although its own
log line says "resending" and the sibling NACK arms pair `wait_to_send = 1`
with `_resend_msg`.  The claim (and spec section 4.5) requires a plain
resend here. -/
theorem nack_engine_i1_sets_wait_without_resend :
    process_direct_nack 0 nackMsg baseDev =
      some {baseDev with hop_array := some [2], wait_to_send := 1} ∧
    baseDev.events = [] := by
  refine ⟨?_, rfl⟩
  simp only [process_direct_nack, write_plm_wait, add_hop, add_to_hop_array,
    hops_used_from_msg, is_valid_direct_ack, nackMsg, baseDev, sentOn]
  norm_num
  exact fun hcon => Option.noConfusion hcon


/-! ## Preservation lemmas for the classification paths -/

theorem msg_rcvd_not_dup_direct (H : Handlers) (now : ℚ) (msg : InMsg)
    (s : DevState) (hmt : msg.message_type = .direct)
    (hnd : dup_found now msg s.recent_inc_msgs = false) :
    msg_rcvd H now msg s = some (process_direct_msg H msg (after_bookkeeping now msg s)) := by
  simp [msg_rcvd, is_duplicate, set_plm_wait, write_plm_wait, hnd, hmt,
    after_bookkeeping]

theorem msg_rcvd_not_dup_broadcast (H : Handlers) (now : ℚ) (msg : InMsg)
    (s : DevState) (hmt : msg.message_type = .broadcast)
    (hnd : dup_found now msg s.recent_inc_msgs = false) :
    msg_rcvd H now msg s = some (broadcast_arm msg (after_bookkeeping now msg s)) := by
  simp [msg_rcvd, is_duplicate, set_plm_wait, write_plm_wait, hnd, hmt,
    after_bookkeeping]

theorem msg_rcvd_not_dup_alllink_cleanup (H : Handlers) (now : ℚ) (msg : InMsg)
    (s : DevState) (hmt : msg.message_type = .alllink_cleanup)
    (hnd : dup_found now msg s.recent_inc_msgs = false) :
    msg_rcvd H now msg s = some (after_bookkeeping now msg s) := by
  simp [msg_rcvd, is_duplicate, set_plm_wait, write_plm_wait, hnd, hmt,
    after_bookkeeping]

theorem recent_process_direct_msg (H : Handlers) (hH : HandlersPreserveRecent H)
    (msg : InMsg) (s : DevState) :
    (process_direct_msg H msg s).recent_inc_msgs = s.recent_inc_msgs := by
  simp only [process_direct_msg]
  split
  · rw [hH.1]
    rfl
  · rfl

theorem recent_process_direct_ack (H : Handlers) (hH : HandlersPreserveRecent H)
    (msg : InMsg) (s s' : DevState) (h : process_direct_ack H msg s = some s') :
    s'.recent_inc_msgs = s.recent_inc_msgs := by
  simp only [process_direct_ack] at h
  split at h
  · exact Option.noConfusion h
  · repeat' split at h
    all_goals
      simp only [Option.some.injEq] at h
    all_goals
      subst h
    all_goals
      simp [set_device_ack, remove_state_machine, addEvent, add_hop,
        send_command, hH.1, hH.2]

theorem recent_process_direct_nack (now : ℚ) (msg : InMsg) (s s' : DevState)
    (h : process_direct_nack now msg s = some s') :
    s'.recent_inc_msgs = s.recent_inc_msgs := by
  simp only [process_direct_nack] at h
  split at h
  · exact Option.noConfusion h
  · repeat' split at h
    all_goals
      simp only [Option.some.injEq] at h
    all_goals
      subst h
    all_goals
      simp [set_device_ack, remove_state_machine, addEvent, add_hop,
        write_plm_wait]

theorem recent_broadcast_arm (msg : InMsg) (s : DevState) :
    (broadcast_arm msg s).recent_inc_msgs = s.recent_inc_msgs := rfl

theorem recent_cleanup_ack_arm (msg : InMsg) (s : DevState) :
    (cleanup_ack_arm msg s).recent_inc_msgs = s.recent_inc_msgs := by
  simp only [cleanup_ack_arm, remove_cleanup_msgs]
  repeat' split
  all_goals rfl

theorem recent_after_bookkeeping (now : ℚ) (msg : InMsg) (s : DevState) :
    (after_bookkeeping now msg s).recent_inc_msgs =
      clear_stale_dupes now s.recent_inc_msgs ++
        [(search_key msg, now + dedup_window msg)] := rfl

/-- After a non-duplicate delivery, the dedup cache holds exactly the
surviving old entries plus the new signature. -/
theorem recent_msg_rcvd (H : Handlers) (hH : HandlersPreserveRecent H)
    (now : ℚ) (msg : InMsg) (s s1 : DevState)
    (hnd : dup_found now msg s.recent_inc_msgs = false)
    (h : msg_rcvd H now msg s = some s1) :
    s1.recent_inc_msgs =
      clear_stale_dupes now s.recent_inc_msgs ++
        [(search_key msg, now + dedup_window msg)] := by
  cases hmt : msg.message_type
  case direct =>
    rw [msg_rcvd_not_dup_direct H now msg s hmt hnd, Option.some.injEq] at h
    rw [← h, recent_process_direct_msg H hH, recent_after_bookkeeping]
  case direct_ack =>
    rw [msg_rcvd_not_dup_direct_ack H now msg s hmt hnd] at h
    rw [recent_process_direct_ack H hH msg _ _ h, recent_after_bookkeeping]
  case direct_nack =>
    rw [msg_rcvd_not_dup_direct_nack H now msg s hmt hnd] at h
    rw [recent_process_direct_nack now msg _ _ h, recent_after_bookkeeping]
  case broadcast =>
    rw [msg_rcvd_not_dup_broadcast H now msg s hmt hnd, Option.some.injEq] at h
    rw [← h, recent_broadcast_arm, recent_after_bookkeeping]
  case alllink_cleanup =>
    rw [msg_rcvd_not_dup_alllink_cleanup H now msg s hmt hnd,
      Option.some.injEq] at h
    rw [← h, recent_after_bookkeeping]
  case alllink_cleanup_ack =>
    rw [msg_rcvd_not_dup_cleanup_ack H now msg s hmt hnd,
      Option.some.injEq] at h
    rw [← h, recent_cleanup_ack_arm, recent_after_bookkeeping]

theorem hop_ok_process_direct_msg (H : Handlers)
    (hH : HandlersPreserveHopOk H) (msg : InMsg) (s : DevState) :
    hop_ok (process_direct_msg H msg s) := by
  simp only [process_direct_msg]
  split
  · exact hH.1 msg _ (hop_ok_add_hop msg s)
  · exact hop_ok_add_hop msg s

theorem hop_ok_process_direct_ack (H : Handlers)
    (hH : HandlersPreserveHopOk H) (msg : InMsg) (s s' : DevState)
    (h : process_direct_ack H msg s = some s') : hop_ok s' := by
  have hbase := hop_ok_add_hop msg s
  simp only [process_direct_ack] at h
  split at h
  · exact Option.noConfusion h
  · repeat' split at h
    all_goals
      simp only [Option.some.injEq] at h
    all_goals
      subst h
    all_goals
      first
        | exact hbase
        | (simp only [hop_ok, set_device_ack, remove_state_machine, addEvent,
             send_command] at hbase ⊢; exact hbase)
        | (simp only [hop_ok, set_device_ack] at hbase ⊢;
           exact hH.2 msg _ hbase)

theorem hop_ok_process_direct_nack (now : ℚ) (msg : InMsg) (s s' : DevState)
    (h : process_direct_nack now msg s = some s') : hop_ok s' := by
  have hbase := hop_ok_add_hop msg s
  simp only [process_direct_nack] at h
  split at h
  · exact Option.noConfusion h
  · repeat' split at h
    all_goals
      simp only [Option.some.injEq] at h
    all_goals
      subst h
    all_goals
      simp only [hop_ok, set_device_ack, remove_state_machine, addEvent,
        send_command, write_plm_wait] at hbase ⊢
    all_goals
      exact hbase

/-- One receive preserves the hop-array bound, for any handler environment
that preserves it. -/
theorem hop_ok_msg_rcvd (H : Handlers) (hH : HandlersPreserveHopOk H)
    (now : ℚ) (msg : InMsg) (s s' : DevState) (hs : hop_ok s)
    (h : msg_rcvd H now msg s = some s') : hop_ok s' := by
  have hab : hop_ok (after_bookkeeping now msg s) := hs
  cases hdup : dup_found now msg s.recent_inc_msgs
  · cases hmt : msg.message_type
    case direct =>
      rw [msg_rcvd_not_dup_direct H now msg s hmt hdup, Option.some.injEq] at h
      rw [← h]
      exact hop_ok_process_direct_msg H hH msg _
    case direct_ack =>
      rw [msg_rcvd_not_dup_direct_ack H now msg s hmt hdup] at h
      exact hop_ok_process_direct_ack H hH msg _ _ h
    case direct_nack =>
      rw [msg_rcvd_not_dup_direct_nack H now msg s hmt hdup] at h
      exact hop_ok_process_direct_nack now msg _ _ h
    case broadcast =>
      rw [msg_rcvd_not_dup_broadcast H now msg s hmt hdup, Option.some.injEq] at h
      rw [← h]
      exact hab
    case alllink_cleanup =>
      rw [msg_rcvd_not_dup_alllink_cleanup H now msg s hmt hdup,
        Option.some.injEq] at h
      rw [← h]
      exact hab
    case alllink_cleanup_ack =>
      rw [msg_rcvd_not_dup_cleanup_ack H now msg s hmt hdup,
        Option.some.injEq] at h
      rw [← h]
      simp only [hop_ok, cleanup_ack_arm, remove_cleanup_msgs]
      repeat' split
      all_goals exact hab
  · rw [msg_rcvd_dup H now msg s hdup, Option.some.injEq] at h
    rw [← h]
    exact hs

/-- Any sequence of receives preserves the hop-array bound. -/
theorem hop_ok_process_frames (H : Handlers) (hH : HandlersPreserveHopOk H) :
    ∀ (frames : List (ℚ × InMsg)) (s s' : DevState), hop_ok s →
      process_frames H frames s = some s' → hop_ok s'
  | [], s, s', hs, h => by
    simp only [process_frames, Option.some.injEq] at h
    rw [← h]
    exact hs
  | f :: rest, s, s', hs, h => by
    simp only [process_frames] at h
    split at h
    · exact Option.noConfusion h
    · rename_i smid hmid
      exact hop_ok_process_frames H hH rest smid s'
        (hop_ok_msg_rcvd H hH f.1 f.2 s smid hs hmid) h

/-- Claim C7 (confirmed): after any sequence of receives the hop array
holds at most 10 samples (for any handler environment preserving the bound,
as every concrete handler does), and each `_add_to_hop_array` append drops
the oldest entries, keeping the suffix of the 10 most recent samples. -/
theorem hop_array_bounded :
    (∀ (H : Handlers) (frames : List (ℚ × InMsg)) (s s' : DevState),
      HandlersPreserveHopOk H → hop_ok s →
      process_frames H frames s = some s' → hop_ok s') ∧
    (∀ (a : List ℕ) (h : ℕ),
      (add_to_hop_array a h).length ≤ 10 ∧
      add_to_hop_array a h = (a ++ [h]).drop ((a ++ [h]).length - 10)) := by
  constructor
  · intro H frames s s' hH hs h
    exact hop_ok_process_frames H hH frames s s' hs h
  · intro a h
    exact ⟨add_to_hop_array_length_le a h, add_to_hop_array_eq_drop a h⟩

/-- Delivering `nackMsg` to `baseDev` at time 0, evaluated: the engine-0x01
NACK arm records the hop, caches the signature, and sets the backoff to 1. -/
theorem msg_rcvd_nack_baseDev :
    msg_rcvd H0 0 nackMsg baseDev = some baseDevOnce := by
  simp only [msg_rcvd, is_duplicate, dup_found, clear_stale_dupes,
    set_plm_wait, write_plm_wait, plm_wait_value, search_key, dedup_window,
    process_direct_nack, add_hop, add_to_hop_array, hops_used_from_msg,
    is_valid_direct_ack, H0, nackMsg, baseDev, baseDevOnce, sentOn, addEvent]
  norm_num
  exact fun hcon => Option.noConfusion hcon

/-- Delivering the direct `dirMsg` to `baseDev` at time 0, evaluated: hop
recorded, signature cached, knob expiry at the hop-derived 55 ms. -/
theorem msg_rcvd_dir_baseDev :
    msg_rcvd H0 0 dirMsg baseDev = some dirOnce := by
  simp only [msg_rcvd, is_duplicate, dup_found, clear_stale_dupes,
    set_plm_wait, write_plm_wait, plm_wait_value, search_key, dedup_window,
    process_direct_msg, add_hop, add_to_hop_array, hops_used_from_msg,
    H0, dirMsg, nackMsg, baseDev, dirOnce]
  norm_num

/-- Witness for claim C7: one delivered NACK on a fresh device keeps the
bound. -/
theorem hop_array_bounded_witness : hop_ok baseDev ∧ hop_ok baseDevOnce := by
  constructor
  · simp [hop_ok, baseDev]
  · exact hop_array_bounded.1 H0 [(0, nackMsg)] baseDev baseDevOnce
      ⟨fun _ _ hs => hs, fun _ _ hs => hs⟩ (by simp [hop_ok, baseDev])
      (by rw [process_frames, msg_rcvd_nack_baseDev]; rfl)

/-- Claim C1 (amended): a second delivery of the identical frame within its
dedup window (87/183 ms times `hops_left`) is dropped by the duplicate
check: no classification handler runs and the device is left unchanged
except for the per-receive bookkeeping that precedes the check —
`last_rcvd_msg` is re-stored, dedup-cache entries that expired in the
meantime are evicted, and the wait-to-send write re-applies the frame's
hop-derived delay at the later arrival time through the no-shrink setter,
which can only extend the modem's send-suppression window, never shrink it
(and leaves it untouched when the two deliveries coincide in time).  In
particular `hop_array` is untouched by the second delivery.  The claim as
stated (identical observable device and modem state) fails because a
strictly later duplicate extends the knob's expiry: see the
counterexample. -/
theorem dedup_second_delivery (H : Handlers) (now1 now2 : ℚ) (msg : InMsg)
    (s s1 : DevState) (hH : HandlersPreserveRecent H) (h12 : now1 ≤ now2)
    (hwin : now2 ≤ now1 + dedup_window msg)
    (hnd : dup_found now1 msg s.recent_inc_msgs = false)
    (h1 : msg_rcvd H now1 msg s = some s1) :
    dup_found now2 msg s1.recent_inc_msgs = true ∧
    msg_rcvd H now2 msg s1 =
      some {s1 with
        wait_to_send := max s1.wait_to_send (now2 + plm_wait_value msg),
        last_rcvd_msg := some msg,
        recent_inc_msgs := clear_stale_dupes now2 s1.recent_inc_msgs} ∧
    s1.wait_to_send ≤ max s1.wait_to_send (now2 + plm_wait_value msg) := by
  have hrec := recent_msg_rcvd H hH now1 msg s s1 hnd h1
  have hkeep : ¬ (now1 + dedup_window msg) < now2 := not_lt.mpr hwin
  have hfound : dup_found now2 msg s1.recent_inc_msgs = true := by
    rw [hrec]
    simp [dup_found, clear_stale_dupes, List.filter_append, hkeep]
    exact Or.inr hwin
  exact ⟨hfound, msg_rcvd_dup H now2 msg s1 hfound, le_max_left _ _⟩

/-- Claim C1 counterexample: `baseDev` receives the direct frame `dirMsg`
(one hop left) at time 0 and again at time 80 ms, inside the 87 ms dedup
window.  The duplicate is dropped, but its pre-check wait-to-send write
re-applies the 55 ms hop delay at the later arrival time, and the
spec-modelled no-shrink setter extends the knob's expiry from 55 ms to
135 ms; every other state field is identical, so processing the frame twice
does not leave the same observable modem state as processing it once. -/
theorem dedup_second_delivery_counterexample :
    ((msg_rcvd H0 0 dirMsg baseDev).bind fun s1 =>
        msg_rcvd H0 (2 / 25) dirMsg s1) ≠
      msg_rcvd H0 0 dirMsg baseDev := by
  rw [msg_rcvd_dir_baseDev, Option.some_bind]
  have hd : dup_found (2 / 25) dirMsg dirOnce.recent_inc_msgs = true := by
    norm_num [dup_found, clear_stale_dupes, dirOnce, baseDev, search_key,
      dirMsg, nackMsg]
  rw [msg_rcvd_dup H0 (2 / 25) dirMsg dirOnce hd]
  intro hcon
  simp only [Option.some.injEq] at hcon
  have hw := congrArg DevState.wait_to_send hcon
  simp only [plm_wait_value, dirMsg, nackMsg, dirOnce, baseDev] at hw
  rw [max_eq_right (by norm_num)] at hw
  norm_num at hw

/-- Witness for claim C1's amended theorem: the counterexample's scenario,
first delivery at time 0 and the duplicate at 80 ms. -/
theorem dedup_second_delivery_witness :
    (0 : ℚ) ≤ 2 / 25 ∧ (2 / 25 : ℚ) ≤ 0 + dedup_window dirMsg ∧
    dup_found 0 dirMsg baseDev.recent_inc_msgs = false ∧
    (dup_found (2 / 25) dirMsg dirOnce.recent_inc_msgs = true ∧
      msg_rcvd H0 (2 / 25) dirMsg dirOnce =
        some {dirOnce with
          wait_to_send := max dirOnce.wait_to_send (2 / 25 + plm_wait_value dirMsg),
          last_rcvd_msg := some dirMsg,
          recent_inc_msgs := clear_stale_dupes (2 / 25) dirOnce.recent_inc_msgs} ∧
      dirOnce.wait_to_send ≤
        max dirOnce.wait_to_send (2 / 25 + plm_wait_value dirMsg)) :=
  ⟨by norm_num, by norm_num [dedup_window, dirMsg, nackMsg], rfl,
    dedup_second_delivery H0 0 (2 / 25) dirMsg baseDev dirOnce
      ⟨fun _ _ => rfl, fun _ _ => rfl⟩ (by norm_num)
      (by norm_num [dedup_window, dirMsg, nackMsg]) rfl msg_rcvd_dir_baseDev⟩

/-- Claim C3 (confirmed): an inbound `direct_ack` or `direct_nack` whose
correlation gate fails (`plm_ack` not true, or `device_ack` not false) is
dropped: no specialized handler runs and the only state changes are the
hop-array append shared by every ack/nack path and the per-receive
wait-to-send, `last_rcvd_msg` and dedup bookkeeping. -/
theorem stale_response_dropped (H : Handlers) (now : ℚ) (msg : InMsg)
    (s : DevState) (l : SentMsg)
    (hmt : msg.message_type = .direct_ack ∨ msg.message_type = .direct_nack)
    (hl : s.last_sent_msg = some l)
    (hstale : l.plm_ack = false ∨ l.device_ack = true)
    (hnd : dup_found now msg s.recent_inc_msgs = false) :
    msg_rcvd H now msg s =
      some {s with
        wait_to_send := max s.wait_to_send (now + plm_wait_value msg),
        last_rcvd_msg := some msg,
        recent_inc_msgs := clear_stale_dupes now s.recent_inc_msgs ++
          [(search_key msg, now + dedup_window msg)],
        hop_array :=
          some (add_to_hop_array (s.hop_array.getD []) (hops_used_from_msg msg))} := by
  have hgate : is_valid_direct_ack l = false := by
    rcases hstale with hp | hdv
    · simp [is_valid_direct_ack, hp]
    · simp [is_valid_direct_ack, hdv]
  rcases hmt with hak | hnk
  · rw [msg_rcvd_not_dup_direct_ack H now msg s hak hnd]
    simp [process_direct_ack, after_bookkeeping, add_hop, hl, hgate]
  · rw [msg_rcvd_not_dup_direct_nack H now msg s hnk hnd]
    simp [process_direct_nack, after_bookkeeping, add_hop, hl, hgate]

/-- Witness for claim C3: `staleDev` has an already device-acked last-sent
frame; the arriving NACK is dropped with only bookkeeping effects. -/
theorem stale_response_dropped_witness :
    nackMsg.message_type = .direct_nack ∧
    staleDev.last_sent_msg = some staleSent ∧
    staleSent.device_ack = true ∧
    dup_found 0 nackMsg staleDev.recent_inc_msgs = false ∧
    msg_rcvd H0 0 nackMsg staleDev =
      some {staleDev with
        wait_to_send := max staleDev.wait_to_send (0 + plm_wait_value nackMsg),
        last_rcvd_msg := some nackMsg,
        recent_inc_msgs := clear_stale_dupes 0 staleDev.recent_inc_msgs ++
          [(search_key nackMsg, 0 + dedup_window nackMsg)],
        hop_array :=
          some (add_to_hop_array (staleDev.hop_array.getD [])
            (hops_used_from_msg nackMsg))} :=
  ⟨rfl, rfl, rfl, rfl,
    stale_response_dropped H0 0 nackMsg staleDev staleSent (Or.inr rfl) rfl
      (Or.inr rfl) rfl⟩

/-- The `light_status_request` branch of `_process_direct_ack`, computed. -/
theorem process_direct_ack_lsr (H : Handlers) (msg : InMsg) (s : DevState)
    (l : SentMsg) (hl : s.last_sent_msg = some l)
    (hgate : is_valid_direct_ack l = true)
    (hcn : l.device_cmd_name = "light_status_request") :
    process_direct_ack H msg s =
      some (set_device_ack
        {(if s.state_machine = "set_aldb_delta" then
            remove_state_machine "set_aldb_delta"
              {add_hop msg s with aldb_delta := some msg.cmd_1}
          else if s.aldb_delta ≠ some msg.cmd_1 then
            addEvent .queryAldb (add_hop msg s)
          else add_hop msg s) with status := some msg.cmd_2}) := by
  by_cases hsm : s.state_machine = "set_aldb_delta"
  · simp [process_direct_ack, add_hop, hl, hgate, hcn, hsm]
  · by_cases had : s.aldb_delta = some msg.cmd_1
    · simp [process_direct_ack, add_hop, hl, hgate, hcn, hsm, had]
    · simp [process_direct_ack, add_hop, hl, hgate, hcn, hsm, had]

/-- Claim C4 (confirmed): a valid direct ack whose last-sent command was
`light_status_request` stores `cmd_2` as the status attribute and marks the
last-sent frame device-acked in every case; if the device is in the
`set_aldb_delta` state machine it adopts `cmd_1` as `aldb_delta` and removes
that state machine, and otherwise a differing stored delta starts a full
ALDB rescan (`query_aldb`) while an equal one changes nothing further. -/
theorem status_request_ack_effects (H : Handlers) (now : ℚ) (msg : InMsg)
    (s : DevState) (l : SentMsg)
    (hmt : msg.message_type = .direct_ack)
    (hl : s.last_sent_msg = some l)
    (hp : l.plm_ack = true) (hd : l.device_ack = false)
    (hcn : l.device_cmd_name = "light_status_request")
    (hnd : dup_found now msg s.recent_inc_msgs = false) :
    ∃ s', msg_rcvd H now msg s = some s' ∧
      s'.status = some msg.cmd_2 ∧
      s'.last_sent_msg = some {l with device_ack := true} ∧
      (s.state_machine = "set_aldb_delta" →
        s'.aldb_delta = some msg.cmd_1 ∧
        s'.events = s.events ++ [.removeStateMachine "set_aldb_delta"]) ∧
      (s.state_machine ≠ "set_aldb_delta" → s.aldb_delta ≠ some msg.cmd_1 →
        s'.aldb_delta = s.aldb_delta ∧ s'.events = s.events ++ [.queryAldb]) ∧
      (s.state_machine ≠ "set_aldb_delta" → s.aldb_delta = some msg.cmd_1 →
        s'.aldb_delta = s.aldb_delta ∧ s'.events = s.events) := by
  rw [msg_rcvd_not_dup_direct_ack H now msg s hmt hnd]
  have hgate : is_valid_direct_ack l = true := by
    simp [is_valid_direct_ack, hp, hd]
  rw [process_direct_ack_lsr H msg (after_bookkeeping now msg s) l
    (by simp [after_bookkeeping, hl]) hgate hcn]
  refine ⟨_, rfl, ?_, ?_, ?_, ?_, ?_⟩
  · by_cases hsm : s.state_machine = "set_aldb_delta" <;>
    by_cases had : s.aldb_delta = some msg.cmd_1 <;>
    simp [set_device_ack, remove_state_machine, addEvent, add_hop,
      after_bookkeeping, hsm, had]
  · by_cases hsm : s.state_machine = "set_aldb_delta" <;>
    by_cases had : s.aldb_delta = some msg.cmd_1 <;>
    simp [set_device_ack, remove_state_machine, addEvent, add_hop,
      after_bookkeeping, hsm, had, hl]
  · intro hsm
    simp [set_device_ack, remove_state_machine, addEvent, add_hop,
      after_bookkeeping, hsm]
  · intro hsm had
    simp [set_device_ack, remove_state_machine, addEvent, add_hop,
      after_bookkeeping, hsm, had]
  · intro hsm had
    simp [set_device_ack, remove_state_machine, addEvent, add_hop,
      after_bookkeeping, hsm, had]

/-- Witness for claim C4: `statusDev` sits in the `set_aldb_delta` state
machine with a `light_status_request` outstanding and receives
`statusAckMsg`. -/
theorem status_request_ack_effects_witness :
    statusAckMsg.message_type = .direct_ack ∧
    statusDev.last_sent_msg = some lsrSent ∧
    lsrSent.plm_ack = true ∧ lsrSent.device_ack = false ∧
    lsrSent.device_cmd_name = "light_status_request" ∧
    dup_found 0 statusAckMsg statusDev.recent_inc_msgs = false ∧
    ∃ s', msg_rcvd H0 0 statusAckMsg statusDev = some s' ∧
      s'.status = some statusAckMsg.cmd_2 ∧
      s'.last_sent_msg = some {lsrSent with device_ack := true} ∧
      (statusDev.state_machine = "set_aldb_delta" →
        s'.aldb_delta = some statusAckMsg.cmd_1 ∧
        s'.events = statusDev.events ++ [.removeStateMachine "set_aldb_delta"]) ∧
      (statusDev.state_machine ≠ "set_aldb_delta" →
          statusDev.aldb_delta ≠ some statusAckMsg.cmd_1 →
        s'.aldb_delta = statusDev.aldb_delta ∧
        s'.events = statusDev.events ++ [.queryAldb]) ∧
      (statusDev.state_machine ≠ "set_aldb_delta" →
          statusDev.aldb_delta = some statusAckMsg.cmd_1 →
        s'.aldb_delta = statusDev.aldb_delta ∧ s'.events = statusDev.events) :=
  ⟨rfl, rfl, rfl, rfl, rfl, rfl,
    status_request_ack_effects H0 0 statusAckMsg statusDev lsrSent rfl rfl
      rfl rfl rfl rfl⟩

/-- Claim C6 (amended): on an `alllink_cleanup_ack`, every queued outgoing
frame of any message class — not only cleanup frames — whose
`(cmd_1, cmd_2)` pair equals the ack's is removed from every state-machine
label's queue; `last_sent_msg.device_ack` is set exactly when its command
bytes match; and the device attributes, hop array, event trace (hence ALDB
and external calls), state machine and all non-matching queued frames are
unchanged.  The claim as stated restricts the removal (and the
no-other-change guarantee) to cleanup frames, but `_remove_cleanup_msgs`
matches on the command bytes alone: see the counterexample, where a queued
`direct` frame is removed. -/
theorem cleanup_ack_removes_matching (H : Handlers) (now : ℚ) (msg : InMsg)
    (s : DevState)
    (hmt : msg.message_type = .alllink_cleanup_ack)
    (hnd : dup_found now msg s.recent_inc_msgs = false) :
    ∃ s', msg_rcvd H now msg s = some s' ∧
      s'.device_msg_queue = s.device_msg_queue.map (fun p =>
        (p.1, p.2.filter fun q =>
          ¬ (q.cmd_1 = msg.cmd_1 ∧ q.cmd_2 = msg.cmd_2))) ∧
      s'.last_sent_msg = s.last_sent_msg.map (fun l =>
        if l.cmd_1 = msg.cmd_1 ∧ l.cmd_2 = msg.cmd_2 then
          {l with device_ack := true}
        else l) ∧
      s'.engine_version = s.engine_version ∧ s'.dev_cat = s.dev_cat ∧
      s'.sub_cat = s.sub_cat ∧ s'.firmware = s.firmware ∧
      s'.status = s.status ∧ s'.aldb_delta = s.aldb_delta ∧
      s'.hop_array = s.hop_array ∧ s'.state_machine = s.state_machine ∧
      s'.events = s.events := by
  rw [msg_rcvd_not_dup_cleanup_ack H now msg s hmt hnd]
  refine ⟨_, rfl, ?_⟩
  rcases hl : s.last_sent_msg with _ | l
  · simp [cleanup_ack_arm, remove_cleanup_msgs, after_bookkeeping, hl]
  · by_cases hmatch : l.cmd_1 = msg.cmd_1 ∧ l.cmd_2 = msg.cmd_2
    · simp [cleanup_ack_arm, remove_cleanup_msgs, set_device_ack,
        after_bookkeeping, hl, hmatch]
    · simp [cleanup_ack_arm, remove_cleanup_msgs, set_device_ack,
        after_bookkeeping, hl, hmatch]

/-- Claim C6 counterexample: `queuedDev` holds one queued `direct` `on`
frame with command bytes `(0x11, 0xFF)`; the matching cleanup ack removes
it, so a non-cleanup piece of device state changes. -/
theorem cleanup_ack_counterexample :
    onQMsg.message_type = .direct ∧
    queuedDev.device_msg_queue = [("", [onQMsg])] ∧
    (msg_rcvd H0 0 cleanupAckMsg queuedDev).map DevState.device_msg_queue =
      some [("", [])] := by
  refine ⟨rfl, rfl, ?_⟩
  decide

/-- Witness for claim C6's amended theorem at `queuedDev`. -/
theorem cleanup_ack_removes_matching_witness :
    cleanupAckMsg.message_type = .alllink_cleanup_ack ∧
    dup_found 0 cleanupAckMsg queuedDev.recent_inc_msgs = false ∧
    ∃ s', msg_rcvd H0 0 cleanupAckMsg queuedDev = some s' ∧
      s'.device_msg_queue = queuedDev.device_msg_queue.map (fun p =>
        (p.1, p.2.filter fun q =>
          ¬ (q.cmd_1 = cleanupAckMsg.cmd_1 ∧ q.cmd_2 = cleanupAckMsg.cmd_2))) ∧
      s'.last_sent_msg = queuedDev.last_sent_msg.map (fun l =>
        if l.cmd_1 = cleanupAckMsg.cmd_1 ∧ l.cmd_2 = cleanupAckMsg.cmd_2 then
          {l with device_ack := true}
        else l) ∧
      s'.engine_version = queuedDev.engine_version ∧
      s'.dev_cat = queuedDev.dev_cat ∧ s'.sub_cat = queuedDev.sub_cat ∧
      s'.firmware = queuedDev.firmware ∧ s'.status = queuedDev.status ∧
      s'.aldb_delta = queuedDev.aldb_delta ∧
      s'.hop_array = queuedDev.hop_array ∧
      s'.state_machine = queuedDev.state_machine ∧
      s'.events = queuedDev.events :=
  ⟨rfl, rfl,
    cleanup_ack_removes_matching H0 0 cleanupAckMsg queuedDev rfl rfl⟩

/-- The direct-nack processor keeps an engine version of 0x02: every arm of
the structured-reason table stores 0x02 or leaves the attribute alone. -/
theorem engine_process_direct_nack (now : ℚ) (msg : InMsg) (s s' : DevState)
    (h2 : s.engine_version = some 0x02)
    (h : process_direct_nack now msg s = some s') :
    s'.engine_version = some 0x02 := by
  simp only [process_direct_nack] at h
  split at h
  · exact Option.noConfusion h
  · repeat' split at h
    all_goals
      simp only [Option.some.injEq] at h
    all_goals
      subst h
    all_goals
      simp [set_device_ack, remove_state_machine, addEvent, add_hop,
        write_plm_wait, h2]

/-- Claim C10 (confirmed): the `get_engine_version` ack handler treats
`cmd_2 ≥ 0xFB` as the i2cs ack-means-nack quirk — it stores engine version
0x02 (never `cmd_2` itself) and re-runs the frame through the direct-nack
handler, so the structured nack-reason table applies; for `cmd_2 < 0xFB` it
stores `cmd_2` as the engine version and continues initialization with step
2, which probes identity when any identity attribute is missing and
otherwise falls through to the status probe of step 3. -/
theorem set_engine_version_spec (now : ℚ) (msg : InMsg) (s : DevState) :
    (msg.cmd_2 < 0xFB →
      set_engine_version now msg s =
        some (init_step_2 {s with engine_version := some msg.cmd_2}) ∧
      ∀ s', set_engine_version now msg s = some s' →
        s'.engine_version = some msg.cmd_2 ∧
        ((s.dev_cat = none ∨ s.sub_cat = none ∨ s.firmware = none) →
          s'.events = s.events ++ [.sendCommand "id_request" ""]) ∧
        (¬ (s.dev_cat = none ∨ s.sub_cat = none ∨ s.firmware = none) →
          s'.events = s.events ++ [.sendCommand "light_status_request" ""])) ∧
    (0xFB ≤ msg.cmd_2 →
      set_engine_version now msg s =
        process_direct_nack now msg {s with engine_version := some 0x02} ∧
      ∀ s', set_engine_version now msg s = some s' →
        s'.engine_version = some 0x02) := by
  constructor
  · intro hlt
    have heq : set_engine_version now msg s =
        some (init_step_2 {s with engine_version := some msg.cmd_2}) := by
      simp [set_engine_version, not_le.mpr hlt]
    refine ⟨heq, ?_⟩
    intro s' h'
    rw [heq, Option.some.injEq] at h'
    subst h'
    by_cases hid : s.dev_cat = none ∨ s.sub_cat = none ∨ s.firmware = none
    · simp [init_step_2, init_step_3, send_command, addEvent, hid]
    · simp [init_step_2, init_step_3, send_command, addEvent, hid]
  · intro hge
    have heq : set_engine_version now msg s =
        process_direct_nack now msg {s with engine_version := some 0x02} := by
      simp [set_engine_version, hge]
    refine ⟨heq, ?_⟩
    intro s' h'
    rw [heq] at h'
    exact engine_process_direct_nack now msg _ s' rfl h'

/-- Witness for claim C10: a `get_engine_version` ack with `cmd_2 = 0x01`
on `baseDev` stores engine version 0x01 and continues with step 2, which
falls through to the status probe because the identity is already known. -/
theorem set_engine_version_spec_witness :
    nackMsg.cmd_2 < 0xFB ∧
    set_engine_version 0 nackMsg baseDev =
      some (init_step_2 {baseDev with engine_version := some nackMsg.cmd_2}) :=
  ⟨by decide, ((set_engine_version_spec 0 nackMsg baseDev).1 (by decide)).1⟩

/-- Claim C5 counterexample: target `[9,2,8,4,5,6,7,8]` against cached
`[1,2,3,4,5,6,7,8]` differs first at position 0, so the claim requires a
peek/poke pair for position 0 *and each subsequent byte* until completion —
in particular a `peek 1`.  The code re-runs the skip loop after every poke
and skips the equal byte at position 1: no `peek 1` is ever issued. -/
theorem perform_write_counterexample :
    perform_write [9, 2, 8, 4, 5, 6, 7, 8] [1, 2, 3, 4, 5, 6, 7, 8] true true 0 =
      [.peek 0, .poke 9, .peek 2, .poke 8, .complete] ∧
    WEvent.peek 1 ∉
      perform_write [9, 2, 8, 4, 5, 6, 7, 8] [1, 2, 3, 4, 5, 6, 7, 8] true true 0 := by
  decide

set_option maxHeartbeats 3200000 in
/-- Claim C5 (amended): for a write of an 8-byte record at a cached key,
equal bytes are skipped throughout the record, not only in the leading
prefix: a `peek_one_byte` / `poke_one_byte` pair is issued exactly for the
byte positions 0..6 whose target value differs from the cached value, in
increasing order, and the byte at position 7 (`data_3`) is never peeked or
poked; when de-linking (`in_use` false) the write completes as soon as the
`link_flags` byte at position 0 has been handled (poked if differing,
skipped if equal), leaving the remaining bytes unwritten. -/
theorem perform_write_skips_all_equal_bytes (target cached : List ℕ)
    (base : ℕ) (hbase : base % 8 = 0) :
    (perform_write target cached true true base =
      write_pair_if_diff target cached base 0 ++
      write_pair_if_diff target cached base 1 ++
      write_pair_if_diff target cached base 2 ++
      write_pair_if_diff target cached base 3 ++
      write_pair_if_diff target cached base 4 ++
      write_pair_if_diff target cached base 5 ++
      write_pair_if_diff target cached base 6 ++ [.complete]) ∧
    (perform_write target cached true false base =
      write_pair_if_diff target cached base 0 ++ [.complete]) := by
  have ha2 : base + 1 + 1 = base + 2 := by omega
  have ha3 : base + 2 + 1 = base + 3 := by omega
  have ha4 : base + 3 + 1 = base + 4 := by omega
  have ha5 : base + 4 + 1 = base + 5 := by omega
  have ha6 : base + 5 + 1 = base + 6 := by omega
  have ha7 : base + 6 + 1 = base + 7 := by omega
  have hm1 : (base + 1) % 8 = 1 := by omega
  have hm2 : (base + 2) % 8 = 2 := by omega
  have hm3 : (base + 3) % 8 = 3 := by omega
  have hm4 : (base + 4) % 8 = 4 := by omega
  have hm5 : (base + 5) % 8 = 5 := by omega
  have hm6 : (base + 6) % 8 = 6 := by omega
  have hm7 : (base + 7) % 8 = 7 := by omega
  constructor <;>
  · by_cases q0 : target.getD 0 0 = cached.getD 0 0 <;>
    by_cases q1 : target.getD 1 0 = cached.getD 1 0 <;>
    by_cases q2 : target.getD 2 0 = cached.getD 2 0 <;>
    by_cases q3 : target.getD 3 0 = cached.getD 3 0 <;>
    by_cases q4 : target.getD 4 0 = cached.getD 4 0 <;>
    by_cases q5 : target.getD 5 0 = cached.getD 5 0 <;>
    by_cases q6 : target.getD 6 0 = cached.getD 6 0 <;>
    simp_all [perform_write, perform_write_fuel, skip_equal_bytes,
      write_pair_if_diff]

/-- Witness for claim C5's amended theorem at record base 8: the record
differs from the cache only at position 2. -/
theorem perform_write_skips_all_equal_bytes_witness :
    (8 : ℕ) % 8 = 0 ∧
    perform_write [0xA2, 1, 2, 3, 4, 5, 6, 7] [0xA2, 1, 9, 3, 4, 5, 6, 7]
        true true 8 =
      write_pair_if_diff [0xA2, 1, 2, 3, 4, 5, 6, 7] [0xA2, 1, 9, 3, 4, 5, 6, 7] 8 0 ++
      write_pair_if_diff [0xA2, 1, 2, 3, 4, 5, 6, 7] [0xA2, 1, 9, 3, 4, 5, 6, 7] 8 1 ++
      write_pair_if_diff [0xA2, 1, 2, 3, 4, 5, 6, 7] [0xA2, 1, 9, 3, 4, 5, 6, 7] 8 2 ++
      write_pair_if_diff [0xA2, 1, 2, 3, 4, 5, 6, 7] [0xA2, 1, 9, 3, 4, 5, 6, 7] 8 3 ++
      write_pair_if_diff [0xA2, 1, 2, 3, 4, 5, 6, 7] [0xA2, 1, 9, 3, 4, 5, 6, 7] 8 4 ++
      write_pair_if_diff [0xA2, 1, 2, 3, 4, 5, 6, 7] [0xA2, 1, 9, 3, 4, 5, 6, 7] 8 5 ++
      write_pair_if_diff [0xA2, 1, 2, 3, 4, 5, 6, 7] [0xA2, 1, 9, 3, 4, 5, 6, 7] 8 6 ++
      [.complete] :=
  ⟨by decide,
    (perform_write_skips_all_equal_bytes
      [0xA2, 1, 2, 3, 4, 5, 6, 7] [0xA2, 1, 9, 3, 4, 5, 6, 7] 8 (by decide)).1⟩

/-- Witness for claim C9 at address `[0, 0]` and engine versions 0 and 1. -/
theorem delete_record_rejects_i1_witness :
    delete_record 0x00 [0, 0] = Except.error "UnboundLocalError" ∧
    ((∃ seq, delete_record 0x01 [0, 0] = Except.ok seq) ↔ 0x00 < 0x01) :=
  ⟨delete_record_rejects_i1.1 [0, 0], delete_record_rejects_i1.2 0x01 [0, 0]⟩
